import Mathlib

/-!
Shallow embedding of the `keg` command-line tool's command layer
(`cmd.go`) together with spec-modelled versions of the dex (index)
query functions that the commands call.  Commands are modelled as pure
functions from an oracle environment (the outcomes of every external
collaborator call: filesystem, config, editor, index store) to a result
paired with a trace of the effectful calls the command performed, in
order.  Go's `nil`-pointer dereference is modelled as a `crash` result.
-/

namespace Keg

/-- A keg reference: `Local{Name, Path}` from the source. -/
structure Local where
  Name : String
  Path : String
deriving DecidableEq, Repr

/-- One index entry.  The source accesses fields `N` (integer id),
`T` (title) and a timestamp; `U` models the `UpdatedAt` time as an
abstract natural number (larger = more recent). -/
structure DexEntry where
  N : Nat
  U : Nat
  T : String
deriving DecidableEq, Repr

/-- The index: an ordered sequence of entries, newest first. -/
abbrev Dex := List DexEntry

/-- Go `strconv.Atoi`: an optional sign followed by one or more decimal
digits; anything else is an error (`none`). -/
def goAtoi (s : String) : Option Int :=
  let digitsVal : List Char → Nat :=
    fun l => l.foldl (fun acc c => acc * 10 + (c.toNat - 48)) 0
  let core : List Char → Int → Option Int :=
    fun l sign =>
      if l = [] then none
      else if l.all Char.isDigit then some (sign * (digitsVal l : Int))
      else none
  match s.toList with
  | '-' :: rest => core rest (-1)
  | '+' :: rest => core rest 1
  | l => core l 1

/-- Go `filepath.Join` restricted to two components (sufficient for the
paths the commands build). -/
def joinPath (a b : String) : String := a ++ "/" ++ b

/-- Whether `pat` occurs as a contiguous sublist of the second list
(substring test over characters). -/
def hasSubChars (pat : List Char) : List Char → Bool
  | [] => pat.isEmpty
  | c :: cs => pat.isPrefixOf (c :: cs) || hasSubChars pat cs

/-- Lower-case a character sequence (case-insensitive comparison). -/
def lowerChars (l : List Char) : List Char :=
  l.map Char.toLower

/-- Modelled from the spec: `DexQuery.FilterByTitleSubstring`
(`Dex.WithTitleText` in the source, which is not under `src/`):
case-insensitive substring match against `Title`; empty text matches
everything; preserves original ordering; empty result is not an error. -/
def Dex.withTitleText (d : Dex) (text : String) : Dex :=
  d.filter fun e => hasSubChars (lowerChars text.toList) (lowerChars e.T.toList)

/-- Modelled from the spec: `DexQuery.ChooseByTitleSubstring`
(`Dex.ChooseWithTitleText` in the source, not under `src/`): same
filter; exactly one match resolves without prompting; several matches
consult the interactive choice `pick` (`none` models a user abort);
zero matches yield `none`. -/
def Dex.chooseWithTitleText (pick : Option Nat) (d : Dex) (text : String) :
    Option DexEntry :=
  match d.withTitleText text with
  | [] => none
  | [e] => some e
  | es =>
    match pick with
    | none => none
    | some i => es.get? i

/-- Modelled from the spec: `DexQuery.Random` (`Dex.Random` in the
source, not under `src/`): uniform selection driven by the randomness
source `pick`; returns `none` on an empty Dex, never errors. -/
def Dex.random (pick : Nat) (d : Dex) : Option DexEntry :=
  if d.isEmpty then none else d.get? (pick % d.length)

/-- Modelled from the spec: the per-entry line of the `AsIncludes`
rendering — one line per entry carrying the node id as a
reference-include. -/
def DexEntry.asInclude (e : DexEntry) : String :=
  "* [" ++ e.T ++ "](/" ++ toString e.N ++ ")"

/-- Modelled from the spec: the per-entry line of the human-readable
`Pretty` rendering. -/
def DexEntry.prettyLine (e : DexEntry) : String :=
  toString e.N ++ " " ++ e.T

/-- The lines of the `AsIncludes` rendering, one per entry, in Dex
order. -/
def Dex.asIncludeLines (d : Dex) : List String :=
  d.map DexEntry.asInclude

/-- The lines of the `Pretty` rendering, one per entry, in Dex order. -/
def Dex.prettyLines (d : Dex) : List String :=
  d.map DexEntry.prettyLine

/-- Modelled from the spec: `Dex.AsIncludes` (not under `src/`) — a pure
rendering of the whole Dex, one line per entry, in order. -/
def Dex.asIncludes (d : Dex) : String :=
  String.join ((Dex.asIncludeLines d).map (fun l => l ++ "\n"))

/-- Modelled from the spec: `Dex.Pretty` (not under `src/`) — a pure
rendering of the whole Dex, one line per entry, in order. -/
def Dex.pretty (d : Dex) : String :=
  String.join ((Dex.prettyLines d).map (fun l => l ++ "\n"))

/-- A raw node of the NodeStore as the builder sees it: an
integer-named directory with a document text and a modification time. -/
structure RawNode where
  id : Nat
  doc : String
  mtime : Nat
deriving DecidableEq, Repr

/-- Modelled from the spec: title extraction — the first heading-like
line of the document, empty string when none is found. -/
def titleOf (doc : String) : String :=
  match (doc.splitOn "\n").filter (fun l => l.startsWith "# ") with
  | [] => ""
  | l :: _ => l.drop 2

/-- Modelled from the spec: `DexBuilder.Build` (not under `src/`) —
skip nodes whose document is missing or empty, extract title and
modification time for the rest, and sort by `UpdatedAt` descending. -/
def buildDex (store : List RawNode) : Dex :=
  List.insertionSort (fun a b => b.U ≤ a.U)
    (store.filterMap fun n =>
      if n.doc = "" then none else some ⟨n.id, n.mtime, titleOf n.doc⟩)

/-- An effectful call the commands perform, recorded in order of
occurrence.  Output events carry the string the command emits. -/
inductive Ev where
  | readDex
  | makeDex
  | dexUpdate
  | publish
  | removeAll (dir : String)
  | editFile (path : String)
  | makeNode
  | writeSample
  | head (n : Int)
  | parseDex
  | page (s : String)
  | print (s : String)
deriving DecidableEq, Repr

/-- The kind of an event, with payloads erased. -/
inductive EvTag where
  | readDex
  | makeDex
  | dexUpdate
  | publish
  | removeAll
  | editFile
  | makeNode
  | writeSample
  | head
  | parseDex
  | page
  | print
deriving DecidableEq, Repr

/-- Erase a trace event to its kind. -/
def Ev.tag : Ev → EvTag
  | .readDex => .readDex
  | .makeDex => .makeDex
  | .dexUpdate => .dexUpdate
  | .publish => .publish
  | .removeAll _ => .removeAll
  | .editFile _ => .editFile
  | .makeNode => .makeNode
  | .writeSample => .writeSample
  | .head _ => .head
  | .parseDex => .parseDex
  | .page _ => .page
  | .print _ => .print

/-- The kinds of the events of a trace, in order. -/
def tagsOf (t : List Ev) : List EvTag := t.map Ev.tag

/-- Whether the first list occurs as a (not necessarily contiguous)
subsequence of the second, in order. -/
def isSubseq {α : Type} [DecidableEq α] : List α → List α → Bool
  | [], _ => true
  | _ :: _, [] => false
  | a :: as, b :: bs =>
    if a = b then isSubseq as bs else isSubseq (a :: as) bs

/-- Whether a trace contains any user-visible output event. -/
def hasOutput (t : List Ev) : Bool :=
  t.any fun e =>
    match e with
    | .page _ => true
    | .print _ => true
    | _ => false

/-- How a command invocation ends: Go `nil` return, non-nil `error`
return, the distinguished usage error (`x.UsageError()`), or a runtime
panic (nil-pointer dereference). -/
inductive CmdResult where
  | ok
  | err (msg : String)
  | usageErr
  | crash (msg : String)
deriving DecidableEq, Repr

/-- Oracle outcomes of every external call a command may make.  Each
field is the value the corresponding collaborator would return on this
invocation; function-typed fields answer calls that take an argument. -/
structure Env where
  /-- outcome of `current(x.Caller)` -/
  currentResult : Except String Local
  /-- outcome of `ReadDex(keg.Path)` -/
  readDexResult : Except String Dex
  /-- outcome of `Last(keg.Path)` -/
  lastResult : Option DexEntry
  /-- outcome of `os.RemoveAll` -/
  removeAllResult : Except String Unit
  /-- outcome of `MakeDex(keg.Path)` -/
  makeDexResult : Except String Unit
  /-- outcome of `DexUpdate(keg.Path, entry)` -/
  dexUpdateResult : Except String Unit
  /-- outcome of `Publish(keg.Path)` -/
  publishResult : Except String Unit
  /-- outcome of `MakeNode(keg.Path)` -/
  makeNodeResult : Except String DexEntry
  /-- outcome of `WriteSample(keg.Path, entry)` -/
  writeSampleResult : Except String Unit
  /-- outcome of `Edit(keg.Path, entry.N)` in create -/
  editNodeResult : Except String Unit
  /-- outcome of `file.Edit(path)` in edit -/
  editFileResult : Except String Unit
  /-- outcome of `file.IsEmpty(path)` after editing -/
  isEmptyAfter : Bool
  /-- `fs.Exists` per path -/
  fileExists : String → Bool
  /-- outcome of `file.Head(path, n)` -/
  headResult : Except String (List String)
  /-- outcome of `ParseDex(...)` -/
  parseDexResult : Except String Dex
  /-- the user's interactive disambiguation choice (`none` = abort) -/
  userPick : Option Nat
  /-- the randomness source consumed by `Dex.Random` -/
  randPick : Nat
  /-- `term.IsInteractive()` -/
  interactive : Bool
  /-- outcome of `x.Get("default")` in latest -/
  defaultVar : Except String String

/-- The collaborator outcomes consumed by the `current` keg resolver. -/
structure CurrentEnv where
  /-- `os.Getenv("KEG_CURRENT")`, empty when unset -/
  kegCurrentEnv : String
  /-- `x.C(key)` config lookup; empty or `"null"` when missing -/
  confMap : String → String
  /-- `os.Getwd()` -/
  cwd : String
  /-- `fs.Exists(filepath.Join(cwd, "keg"))` -/
  cwdHasKegFile : Bool
  /-- `x.Get("current")`, empty when unset -/
  currentVar : String
  /-- `fs.Tilde2Home` -/
  tilde2Home : String → String
  /-- `filepath.Base` -/
  base : String → String

/-- The `current` function of `cmd.go`: resolve the active keg with
fixed precedence — `KEG_CURRENT` environment variable mapped through
config, then a `keg` marker file in the working directory, then the
persisted `current` var mapped through config; otherwise an error. -/
def current (e : CurrentEnv) : Except String Local :=
  let name := e.kegCurrentEnv
  let dir := e.confMap ("map." ++ name)
  if ¬(dir = "" ∨ dir = "null") then
    .ok ⟨name, e.tilde2Home dir⟩
  else if e.cwdHasKegFile = true then
    .ok ⟨e.base e.cwd, e.cwd⟩
  else
    let name2 := e.currentVar
    if name2 ≠ "" then
      let dir2 := e.confMap ("map." ++ name2)
      if ¬(dir2 = "" ∨ dir2 = "null") then
        .ok ⟨name2, e.tilde2Home dir2⟩
      else
        .error "no kegs found"
    else
      .error "no kegs found"

/-- The `titles` command (`titleCmd` in `cmd.go`): default the argument
list to one empty string, resolve the current keg, load the index with
`ReadDex` (aborting on error), filter by the joined argument text, and
render `Pretty` through the pager when interactive or `AsIncludes` to
stdout when piped. -/
def titleCmd (env : Env) (args : List String) : CmdResult × List Ev :=
  let args := if args = [] then [""] else args
  match env.currentResult with
  | .error e => (.err e, [])
  | .ok _ =>
    let str := String.intercalate " " args
    match env.readDexResult with
    | .error e => (.err e, [.readDex])
    | .ok d =>
      if env.interactive then
        (.ok, [.readDex, .page (Dex.pretty (Dex.withTitleText d str))])
      else
        (.ok, [.readDex, .print (Dex.asIncludes (Dex.withTitleText d str))])

/-- The `dir` command (`dirCmd` in `cmd.go`): with no argument print
the keg path; with an argument load the index with `ReadDex`
*discarding the error* (`dex, _ :=`), disambiguate by title text, and
print the joined node path.  A `nil` choice is dereferenced
(`choice.N`) without a check, which panics; a `nil` index from a failed
`ReadDex` is modelled as the empty index (the most benign reading). -/
def dirCmd (env : Env) (args : List String) : CmdResult × List Ev :=
  match env.currentResult with
  | .error e => (.err e, [])
  | .ok keg =>
    match args with
    | [] => (.ok, [.print keg.Path])
    | _ :: _ =>
      let d :=
        match env.readDexResult with
        | .ok d => d
        | .error _ => ([] : Dex)
      match Dex.chooseWithTitleText env.userPick d
          (String.intercalate " " args) with
      | none =>
        (.crash "invalid memory address or nil pointer dereference",
         [.readDex])
      | some c =>
        (.ok, [.readDex, .print (joinPath keg.Path (toString c.N))])

/-- The `delete` command (`deleteCmd` in `cmd.go`): resolve the keg,
substitute `last` by the most recent node's id when one exists, require
the id to parse as an integer (usage error otherwise), then remove the
node directory, rebuild the index with `MakeDex`, and `Publish`. -/
def deleteCmd (env : Env) (args : List String) : CmdResult × List Ev :=
  match env.currentResult with
  | .error e => (.err e, [])
  | .ok keg =>
    match args with
    | [] => (.crash "index out of range", [])
    | id0 :: _ =>
      let id :=
        if id0 = "last" then
          match env.lastResult with
          | some n => toString n.N
          | none => id0
        else id0
      if goAtoi id = none then (.usageErr, [])
      else
        let dir := joinPath keg.Path id
        match env.removeAllResult with
        | .error e => (.err e, [.removeAll dir])
        | .ok _ =>
          match env.makeDexResult with
          | .error e => (.err e, [.removeAll dir, .makeDex])
          | .ok _ =>
            match env.publishResult with
            | .error e => (.err e, [.removeAll dir, .makeDex, .publish])
            | .ok _ => (.ok, [.removeAll dir, .makeDex, .publish])

/-- The tail of the `edit` command from the existence check on: edit
the node document, remove the node directory when the edit left the
document empty, rebuild the index with `MakeDex`, and `Publish`.
`tr` is the trace accumulated while resolving the id. -/
def editFinish (env : Env) (kegPath id : String) (tr : List Ev) :
    CmdResult × List Ev :=
  let path := joinPath (joinPath kegPath id) "README.md"
  if !env.fileExists path then
    (.err ("content node (" ++ id ++ ") does not exist"), tr)
  else
    match env.editFileResult with
    | .error e => (.err e, tr ++ [.editFile path])
    | .ok _ =>
      let tr := tr ++ [.editFile path]
      let removed :
          Except (String × List Ev) (List Ev) :=
        if env.isEmptyAfter then
          match env.removeAllResult with
          | .error e => .error (e, tr ++ [.removeAll (joinPath kegPath id)])
          | .ok _ => .ok (tr ++ [.removeAll (joinPath kegPath id)])
        else .ok tr
      match removed with
      | .error (e, tr) => (.err e, tr)
      | .ok tr =>
        match env.makeDexResult with
        | .error e => (.err e, tr ++ [.makeDex])
        | .ok _ =>
          match env.publishResult with
          | .error e => (.err e, tr ++ [.makeDex, .publish])
          | .ok _ => (.ok, tr ++ [.makeDex, .publish])

/-- The `edit` command (`editCmd` in `cmd.go`): no argument shows help;
a piped invocation delegates to `titles`; otherwise resolve the node id
(`last` sentinel, literal integer, or interactive title
disambiguation, which reports an error when no node is chosen) and run
the edit tail. -/
def editCmd (env : Env) (args : List String) : CmdResult × List Ev :=
  match args with
  | [] => (.ok, [])
  | id0 :: _ =>
    if !env.interactive then titleCmd env args
    else
      match env.currentResult with
      | .error e => (.err e, [])
      | .ok keg =>
        if id0 = "last" then
          let id :=
            match env.lastResult with
            | some n => toString n.N
            | none => id0
          editFinish env keg.Path id []
        else
          if !(goAtoi id0 = none) then editFinish env keg.Path id0 []
          else
            match env.readDexResult with
            | .error e => (.err e, [.readDex])
            | .ok d =>
              match Dex.chooseWithTitleText env.userPick d
                  (String.intercalate " " args) with
              | none => (.err "unable to choose a title", [.readDex])
              | some c => editFinish env keg.Path (toString c.N) [.readDex]

/-- The `create` command (`createCmd` in `cmd.go`): resolve the keg,
make a fresh node, optionally write the sample document, open the
editor on the node, update the index with `DexUpdate`, and `Publish`. -/
def createCmd (env : Env) (args : List String) : CmdResult × List Ev :=
  match env.currentResult with
  | .error e => (.err e, [])
  | .ok _ =>
    match env.makeNodeResult with
    | .error e => (.err e, [.makeNode])
    | .ok _entry =>
      let sampled :
          Except (String × List Ev) (List Ev) :=
        match args with
        | a :: _ =>
          if a = "sample" then
            match env.writeSampleResult with
            | .error e => .error (e, [.makeNode, .writeSample])
            | .ok _ => .ok [.makeNode, .writeSample]
          else .ok [.makeNode]
        | [] => .ok [.makeNode]
      match sampled with
      | .error (e, tr) => (.err e, tr)
      | .ok tr =>
        match env.editNodeResult with
        | .error e => (.err e, tr)
        | .ok _ =>
          match env.dexUpdateResult with
          | .error e => (.err e, tr ++ [.dexUpdate])
          | .ok _ =>
            match env.publishResult with
            | .error e => (.err e, tr ++ [.dexUpdate, .publish])
            | .ok _ => (.ok, tr ++ [.dexUpdate, .publish])

/-- The `latest` command (`latestCmd` in `cmd.go`): determine the line
count from the first argument or the `default` var (falling back to 1),
resolve the keg, fail when `dex/latest.md` does not exist, read its
head, parse it with `ParseDex` — returning success with no output when
the parse fails — and otherwise print `Pretty` or `AsIncludes`
depending on interactivity. -/
def latestCmd (env : Env) (args : List String) : CmdResult × List Ev :=
  let nRes : Except String Int :=
    match args with
    | a :: _ =>
      match goAtoi a with
      | some i => .ok i
      | none => .error ("invalid syntax: " ++ a)
    | [] =>
      match env.defaultVar with
      | .ok defv =>
        if defv ≠ "" then
          match goAtoi defv with
          | some i => .ok i
          | none => .error ("invalid syntax: " ++ defv)
        else .ok 1
      | .error _ => .ok 1
  match nRes with
  | .error e => (.err e, [])
  | .ok n =>
    match env.currentResult with
    | .error e => (.err e, [])
    | .ok keg =>
      let path := joinPath keg.Path "dex/latest.md"
      if !env.fileExists path then
        (.err "dex/latest.md file does not exist", [])
      else
        match env.headResult with
        | .error e => (.err e, [.head n])
        | .ok _lines =>
          match env.parseDexResult with
          | .error _ => (.ok, [.head n, .parseDex])
          | .ok d =>
            if env.interactive then
              (.ok, [.head n, .parseDex, .print (Dex.pretty d)])
            else
              (.ok, [.head n, .parseDex, .print (Dex.asIncludes d)])

/-- The `random` command (`randomCmd` in `cmd.go`): default the mode to
`edit`, resolve the keg, load the index with `ReadDex` *without
checking the error* (modelled as the empty index on failure), draw a
random entry, and dereference it (`r.N`, `r.T`) in every recognised
mode — which panics when the entry is `nil`. -/
def randomCmd (env : Env) (args : List String) : CmdResult × List Ev :=
  let mode :=
    match args with
    | [] => "edit"
    | m :: _ => m
  match env.currentResult with
  | .error e => (.err e, [])
  | .ok _keg =>
    let d :=
      match env.readDexResult with
      | .ok d => d
      | .error _ => ([] : Dex)
    let r := Dex.random env.randPick d
    if mode = "id" then
      match r with
      | none =>
        (.crash "invalid memory address or nil pointer dereference",
         [.readDex])
      | some e => (.ok, [.readDex, .print (toString e.N)])
    else if mode = "title" then
      match r with
      | none =>
        (.crash "invalid memory address or nil pointer dereference",
         [.readDex])
      | some e => (.ok, [.readDex, .print e.T])
    else if mode = "edit" then
      match r with
      | none =>
        (.crash "invalid memory address or nil pointer dereference",
         [.readDex])
      | some e =>
        let res := editCmd env [toString e.N]
        (res.1, [Ev.readDex] ++ res.2)
    else if mode = "dir" then
      match r with
      | none =>
        (.crash "invalid memory address or nil pointer dereference",
         [.readDex])
      | some e => (.ok, [.readDex, .print (toString e.N)])
    else
      (.ok, [.readDex])

/-- A collaborator environment in which every external call succeeds;
used to instantiate the theorems at concrete inputs. -/
def allOkEnv : Env where
  currentResult := .ok ⟨"k", "/keg"⟩
  readDexResult := .ok [⟨1, 10, "Alpha"⟩, ⟨2, 20, "Beta"⟩]
  lastResult := some ⟨2, 20, "Beta"⟩
  removeAllResult := .ok ()
  makeDexResult := .ok ()
  dexUpdateResult := .ok ()
  publishResult := .ok ()
  makeNodeResult := .ok ⟨3, 30, ""⟩
  writeSampleResult := .ok ()
  editNodeResult := .ok ()
  editFileResult := .ok ()
  isEmptyAfter := false
  fileExists := fun _ => true
  headResult := .ok ["hdr"]
  parseDexResult := .ok [⟨1, 10, "Alpha"⟩]
  userPick := none
  randPick := 0
  interactive := true
  defaultVar := .ok ""

/-- `allOkEnv` with a failing `ReadDex` (the index file cannot be
read). -/
def readFailEnv : Env :=
  { allOkEnv with readDexResult := .error "boom" }

/-- `allOkEnv` with an empty index. -/
def emptyDexEnv : Env :=
  { allOkEnv with readDexResult := .ok [] }

/-- `allOkEnv` with a failing `ParseDex`. -/
def parseFailEnv : Env :=
  { allOkEnv with parseDexResult := .error "bad line" }

/-- `allOkEnv` with a missing `dex/latest.md`. -/
def noLatestEnv : Env :=
  { allOkEnv with fileExists := fun _ => false }

/-- `allOkEnv` where the edited document is empty afterwards. -/
def emptyAfterEnv : Env :=
  { allOkEnv with isEmptyAfter := true }

/-- A concrete NodeStore containing one empty-document node and one
regular node. -/
def sampleStore : List RawNode :=
  [⟨3, "", 5⟩, ⟨4, "# Title\nbody", 6⟩]

/-- A concrete resolver environment in which `KEG_CURRENT` maps to a
keg directory through the config. -/
def envRouteEnv : CurrentEnv where
  kegCurrentEnv := "k"
  confMap := fun s => if s = "map.k" then "~/keg" else ""
  cwd := "/home/u/other"
  cwdHasKegFile := false
  currentVar := ""
  tilde2Home := fun s => s
  base := fun s => s

/-- C1: every mutating command that returns success has a trace in
which the NodeStore mutation (node removal, document edit, node
creation) is followed by an index rebuild (`MakeDex` for delete and
edit, `DexUpdate` for create) which is followed by `Publish`, in that
order; no mutating command returns success without the rebuild.  For
edit the hypotheses restrict to invocations that reach the mutation
path (interactive, with an argument). -/
theorem C1_mutation_rebuilds_index_then_publishes
    (env : Env) (args : List String) :
    ((deleteCmd env args).1 = CmdResult.ok →
      isSubseq [EvTag.removeAll, EvTag.makeDex, EvTag.publish]
        (tagsOf (deleteCmd env args).2) = true) ∧
    (env.interactive = true → args ≠ [] →
      (editCmd env args).1 = CmdResult.ok →
      isSubseq [EvTag.editFile, EvTag.makeDex, EvTag.publish]
        (tagsOf (editCmd env args).2) = true) ∧
    ((createCmd env args).1 = CmdResult.ok →
      isSubseq [EvTag.makeNode, EvTag.dexUpdate, EvTag.publish]
        (tagsOf (createCmd env args).2) = true) := by
  refine ⟨?_, ?_, ?_⟩
  · intro h
    unfold deleteCmd at h ⊢
    repeat' (first | split at h | simp only [] at h ⊢)
    all_goals simp_all [tagsOf, Ev.tag, isSubseq]
  · intro hi ha h
    unfold editCmd editFinish at h ⊢
    repeat' (first | split at h | simp only [] at h ⊢)
    all_goals simp_all [tagsOf, Ev.tag, isSubseq]
  · intro h
    unfold createCmd at h ⊢
    repeat' (first | split at h | simp only [] at h ⊢)
    all_goals simp_all [tagsOf, Ev.tag, isSubseq]

/-- C1 witness: the theorem instantiated at concrete successful
delete, edit and create invocations. -/
theorem C1_mutation_rebuilds_index_then_publishes_witness :
    isSubseq [EvTag.removeAll, EvTag.makeDex, EvTag.publish]
      (tagsOf (deleteCmd allOkEnv ["3"]).2) = true ∧
    isSubseq [EvTag.editFile, EvTag.makeDex, EvTag.publish]
      (tagsOf (editCmd allOkEnv ["2"]).2) = true ∧
    isSubseq [EvTag.makeNode, EvTag.dexUpdate, EvTag.publish]
      (tagsOf (createCmd allOkEnv []).2) = true :=
  ⟨(C1_mutation_rebuilds_index_then_publishes allOkEnv ["3"]).1 (by decide),
   (C1_mutation_rebuilds_index_then_publishes allOkEnv ["2"]).2.1 rfl
     (by decide) (by decide),
   (C1_mutation_rebuilds_index_then_publishes allOkEnv []).2.2 (by decide)⟩

/-- C2: evaluation at the failing input — when `ReadDex` fails,
`titles` aborts returning the error, but `dir` (with an argument) and
`random` ignore the error (`dex, _ :=` and an unchecked `err`) and end
in a nil-pointer dereference crash instead of returning the error. -/
theorem C2_readdex_failure_not_propagated_by_dir_and_random :
    (titleCmd readFailEnv ["a"]).1 = CmdResult.err "boom" ∧
    (dirCmd readFailEnv ["a"]).1 =
      CmdResult.crash "invalid memory address or nil pointer dereference" ∧
    (randomCmd readFailEnv ["id"]).1 =
      CmdResult.crash "invalid memory address or nil pointer dereference" :=
  ⟨rfl, rfl, rfl⟩

/-- C3: when `ParseDex` fails on the head lines of `dex/latest.md`,
the `latest` command returns success (`nil`) and its trace contains no
output event. -/
theorem C3_latest_parse_error_returns_success_silently
    (env : Env) (a : String) (k : Int) (keg : Local)
    (lines : List String) (e : String)
    (hk : env.currentResult = .ok keg)
    (ha : goAtoi a = some k)
    (hx : env.fileExists (joinPath keg.Path "dex/latest.md") = true)
    (hh : env.headResult = .ok lines)
    (hp : env.parseDexResult = .error e) :
    (latestCmd env [a]).1 = CmdResult.ok ∧
    hasOutput (latestCmd env [a]).2 = false := by
  refine ⟨?_, ?_⟩ <;> simp [latestCmd, hk, ha, hx, hh, hp, hasOutput]

/-- C3 witness: the theorem instantiated at a concrete invocation with
a failing `ParseDex`. -/
theorem C3_latest_parse_error_returns_success_silently_witness :
    (latestCmd parseFailEnv ["2"]).1 = CmdResult.ok ∧
    hasOutput (latestCmd parseFailEnv ["2"]).2 = false :=
  C3_latest_parse_error_returns_success_silently parseFailEnv "2" 2
    ⟨"k", "/keg"⟩ ["hdr"] "bad line" rfl (by decide) rfl rfl rfl

/-- C4: `current` resolves the active keg with fixed precedence —
first `KEG_CURRENT` mapped through config, then a `keg` marker file in
the working directory, then the persisted `current` var mapped through
config — and returns an error with no `Local` when none of the three
resolves. -/
theorem C4_current_resolution_precedence (e : CurrentEnv) :
    (¬(e.confMap ("map." ++ e.kegCurrentEnv) = "" ∨
        e.confMap ("map." ++ e.kegCurrentEnv) = "null") →
      current e = .ok ⟨e.kegCurrentEnv,
        e.tilde2Home (e.confMap ("map." ++ e.kegCurrentEnv))⟩) ∧
    ((e.confMap ("map." ++ e.kegCurrentEnv) = "" ∨
        e.confMap ("map." ++ e.kegCurrentEnv) = "null") →
      e.cwdHasKegFile = true →
      current e = .ok ⟨e.base e.cwd, e.cwd⟩) ∧
    ((e.confMap ("map." ++ e.kegCurrentEnv) = "" ∨
        e.confMap ("map." ++ e.kegCurrentEnv) = "null") →
      e.cwdHasKegFile = false →
      e.currentVar ≠ "" →
      ¬(e.confMap ("map." ++ e.currentVar) = "" ∨
          e.confMap ("map." ++ e.currentVar) = "null") →
      current e = .ok ⟨e.currentVar,
        e.tilde2Home (e.confMap ("map." ++ e.currentVar))⟩) ∧
    ((e.confMap ("map." ++ e.kegCurrentEnv) = "" ∨
        e.confMap ("map." ++ e.kegCurrentEnv) = "null") →
      e.cwdHasKegFile = false →
      (e.currentVar = "" ∨
        e.confMap ("map." ++ e.currentVar) = "" ∨
        e.confMap ("map." ++ e.currentVar) = "null") →
      current e = .error "no kegs found") := by
  refine ⟨?_, ?_, ?_, ?_⟩
  · intro h1
    simp [current, h1]
  · intro h1 h2
    simp [current, h1, h2]
  · intro h1 h2 h3 h4
    simp [current, h1, h2, h3, h4]
  · intro h1 h2 h3
    rcases h3 with h3 | h3 | h3 <;> simp [current, h1, h2, h3]

/-- C4 witness: the environment-variable route instantiated
concretely. -/
theorem C4_current_resolution_precedence_witness :
    current envRouteEnv = .ok ⟨"k", "~/keg"⟩ :=
  (C4_current_resolution_precedence envRouteEnv).1 (by decide)

/-- C5: a successful edit invocation that leaves the document empty
removes the node directory before the index rebuild (the `removeAll`
event precedes `makeDex` in the trace), and the spec-modelled builder
never retains an entry for a node whose document is empty, so empty
nodes do not survive into the rebuilt Dex. -/
theorem C5_empty_edit_removes_node_before_rebuild
    (env : Env) (args : List String) (store : List RawNode)
    (hi : env.interactive = true) (ha : args ≠ [])
    (he : env.isEmptyAfter = true)
    (hok : (editCmd env args).1 = CmdResult.ok) :
    isSubseq [EvTag.removeAll, EvTag.makeDex]
      (tagsOf (editCmd env args).2) = true ∧
    ∀ en ∈ buildDex store, ∃ rn ∈ store, rn.doc ≠ "" ∧ en.N = rn.id := by
  constructor
  · unfold editCmd editFinish at hok ⊢
    repeat' (first | split at hok | simp only [] at hok ⊢)
    all_goals simp_all [tagsOf, Ev.tag, isSubseq]
  · intro en hmem
    unfold buildDex at hmem
    rw [(List.perm_insertionSort _ _).mem_iff, List.mem_filterMap] at hmem
    obtain ⟨rn, hrn, hsome⟩ := hmem
    by_cases hd : rn.doc = ""
    · simp [hd] at hsome
    · refine ⟨rn, hrn, hd, ?_⟩
      simp [hd] at hsome
      subst hsome
      rfl

/-- C5 witness: the theorem instantiated at a concrete successful
empty-leaving edit and a concrete NodeStore. -/
theorem C5_empty_edit_removes_node_before_rebuild_witness :
    isSubseq [EvTag.removeAll, EvTag.makeDex]
      (tagsOf (editCmd emptyAfterEnv ["2"]).2) = true ∧
    ∀ en ∈ buildDex sampleStore,
      ∃ rn ∈ sampleStore, rn.doc ≠ "" ∧ en.N = rn.id :=
  C5_empty_edit_removes_node_before_rebuild emptyAfterEnv ["2"] sampleStore
    rfl (by decide) rfl (by decide)

/-- C6: when `dex/latest.md` does not exist under the resolved keg
path, the `latest` command fails with the not-found error and its
trace is empty — no head read, no parse, no output. -/
theorem C6_latest_missing_file_errors_before_parse
    (env : Env) (a : String) (k : Int) (keg : Local)
    (hk : env.currentResult = .ok keg)
    (ha : goAtoi a = some k)
    (hx : env.fileExists (joinPath keg.Path "dex/latest.md") = false) :
    latestCmd env [a] = (.err "dex/latest.md file does not exist", []) := by
  simp [latestCmd, hk, ha, hx]

/-- C6 witness: the theorem instantiated at a concrete invocation with
the index file absent. -/
theorem C6_latest_missing_file_errors_before_parse_witness :
    latestCmd noLatestEnv ["2"] =
      (.err "dex/latest.md file does not exist", []) :=
  C6_latest_missing_file_errors_before_parse noLatestEnv "2" 2
    ⟨"k", "/keg"⟩ rfl (by decide) rfl

/-- C7 counterexample: on an empty index the `random` command does not
complete without failure — already in the `id` argument mode it
crashes dereferencing the nil entry returned by `Random`. -/
theorem C7_counterexample_random_cmd_crashes_on_empty_dex :
    (randomCmd emptyDexEnv ["id"]).1 =
      CmdResult.crash "invalid memory address or nil pointer dereference" :=
  rfl

/-- C7 amended: `Random` on an empty Dex returns `none` and never
errors, but the `random` command dereferences the result without a nil
check and therefore crashes on an empty or unreadable index in every
argument mode (id, title, dir, edit). -/
theorem C7_amended_random_none_on_empty_but_cmd_crashes
    (env : Env) (mode : String) (pick : Nat) (keg : Local)
    (hk : env.currentResult = .ok keg)
    (hd : env.readDexResult = .ok [] ∨ ∃ e, env.readDexResult = .error e)
    (hm : mode = "id" ∨ mode = "title" ∨ mode = "dir" ∨ mode = "edit") :
    Dex.random pick [] = none ∧
    (randomCmd env [mode]).1 =
      CmdResult.crash "invalid memory address or nil pointer dereference" := by
  refine ⟨rfl, ?_⟩
  have hdex : (match env.readDexResult with
      | .ok d => d
      | .error _ => ([] : Dex)) = ([] : Dex) := by
    rcases hd with h | ⟨e, h⟩ <;> simp [h]
  rcases hm with h | h | h | h <;> subst h <;>
    simp [randomCmd, hk, hdex, Dex.random]

/-- C7 witness: the amended theorem instantiated at an empty index in
the `id` mode. -/
theorem C7_amended_random_none_on_empty_but_cmd_crashes_witness :
    Dex.random 0 [] = none ∧
    (randomCmd emptyDexEnv ["id"]).1 =
      CmdResult.crash "invalid memory address or nil pointer dereference" :=
  C7_amended_random_none_on_empty_but_cmd_crashes emptyDexEnv "id" 0
    ⟨"k", "/keg"⟩ rfl (Or.inl rfl) (Or.inl rfl)

/-- C8 counterexample: with a loaded index and a query text matching
no title, `dir` crashes dereferencing the nil choice (`choice.N`)
instead of reporting an error. -/
theorem C8_counterexample_dir_crashes_on_no_choice :
    (dirCmd allOkEnv ["zzz"]).1 =
      CmdResult.crash "invalid memory address or nil pointer dereference" :=
  rfl

/-- C8 amended: when `ChooseWithTitleText` yields no node, `edit` with
a non-integer argument reports an error, but `dir` with an argument
crashes on the nil choice. -/
theorem C8_amended_edit_reports_error_dir_crashes
    (env : Env) (a0 : String) (rest : List String) (d : Dex) (keg : Local)
    (hk : env.currentResult = .ok keg)
    (hd : env.readDexResult = .ok d)
    (hi : env.interactive = true)
    (hl : a0 ≠ "last")
    (hn : goAtoi a0 = none)
    (hc : Dex.chooseWithTitleText env.userPick d
        (String.intercalate " " (a0 :: rest)) = none) :
    editCmd env (a0 :: rest) =
      (CmdResult.err "unable to choose a title", [Ev.readDex]) ∧
    (dirCmd env (a0 :: rest)).1 =
      CmdResult.crash "invalid memory address or nil pointer dereference" := by
  constructor
  · simp [editCmd, hk, hd, hi, hl, hn, hc]
  · simp [dirCmd, hk, hd, hc]

/-- C8 witness: the amended theorem instantiated at a concrete
no-match query. -/
theorem C8_amended_edit_reports_error_dir_crashes_witness :
    editCmd allOkEnv ["zzz"] =
      (CmdResult.err "unable to choose a title", [Ev.readDex]) ∧
    (dirCmd allOkEnv ["zzz"]).1 =
      CmdResult.crash "invalid memory address or nil pointer dereference" :=
  C8_amended_edit_reports_error_dir_crashes allOkEnv "zzz" []
    [⟨1, 10, "Alpha"⟩, ⟨2, 20, "Beta"⟩] ⟨"k", "/keg"⟩ rfl rfl rfl
    (by decide) (by decide) (by decide)

/-- An empty pattern occurs in every character sequence. -/
theorem hasSubChars_nil (l : List Char) : hasSubChars [] l = true := by
  cases l <;> simp [hasSubChars, List.isPrefixOf]

/-- Filtering with the empty text keeps every entry, in order. -/
theorem withTitleText_empty_eq_self (d : Dex) :
    Dex.withTitleText d "" = d := by
  unfold Dex.withTitleText
  rw [List.filter_eq_self]
  intro e _
  have h0 : lowerChars "".toList = [] := rfl
  rw [h0]
  exact hasSubChars_nil _

/-- C9: `titles` and `latest` render the same loaded Dex with `Pretty`
when interactive and `AsIncludes` when piped; both renderings list the
entries of that same Dex one line per entry in the same order; and
`titles` with no arguments filters with the empty string, which keeps
every entry. -/
theorem C9_titles_latest_render_same_dex_both_modes
    (env : Env) (args : List String) (d d2 : Dex) (keg : Local)
    (a : String) (k : Int) (lines : List String)
    (hk : env.currentResult = .ok keg)
    (hd : env.readDexResult = .ok d)
    (ha : goAtoi a = some k)
    (hx : env.fileExists (joinPath keg.Path "dex/latest.md") = true)
    (hh : env.headResult = .ok lines)
    (hp : env.parseDexResult = .ok d2) :
    (titleCmd { env with interactive := true } args =
       (CmdResult.ok, [Ev.readDex, Ev.page (Dex.pretty (Dex.withTitleText d
         (String.intercalate " " (if args = [] then [""] else args))))]) ∧
     titleCmd { env with interactive := false } args =
       (CmdResult.ok, [Ev.readDex,
         Ev.print (Dex.asIncludes (Dex.withTitleText d
           (String.intercalate " " (if args = [] then [""] else args))))])) ∧
    (latestCmd { env with interactive := true } [a] =
       (CmdResult.ok, [Ev.head k, Ev.parseDex, Ev.print (Dex.pretty d2)]) ∧
     latestCmd { env with interactive := false } [a] =
       (CmdResult.ok,
         [Ev.head k, Ev.parseDex, Ev.print (Dex.asIncludes d2)])) ∧
    (args = [] →
      Dex.withTitleText d
        (String.intercalate " " (if args = [] then [""] else args)) = d) ∧
    (∀ dd : Dex,
      (Dex.prettyLines dd).length = dd.length ∧
      (Dex.asIncludeLines dd).length = dd.length ∧
      ∀ i : Nat,
        (Dex.prettyLines dd)[i]? = dd[i]?.map DexEntry.prettyLine ∧
        (Dex.asIncludeLines dd)[i]? =
          dd[i]?.map DexEntry.asInclude) := by
  refine ⟨⟨?_, ?_⟩, ⟨?_, ?_⟩, ?_, ?_⟩
  · simp [titleCmd, hk, hd]
  · simp [titleCmd, hk, hd]
  · simp [latestCmd, hk, ha, hx, hh, hp]
  · simp [latestCmd, hk, ha, hx, hh, hp]
  · intro h0
    subst h0
    have h1 : String.intercalate " " [""] = "" := rfl
    simp [h1, withTitleText_empty_eq_self]
  · intro dd
    refine ⟨?_, ?_, ?_⟩ <;>
      simp [Dex.prettyLines, Dex.asIncludeLines, List.getElem?_map]

/-- C9 witness: the theorem instantiated at a concrete environment,
projected to the `titles` branch pair. -/
theorem C9_titles_latest_render_same_dex_both_modes_witness :
    titleCmd { allOkEnv with interactive := true } [] =
      (CmdResult.ok, [Ev.readDex, Ev.page (Dex.pretty (Dex.withTitleText
        [⟨1, 10, "Alpha"⟩, ⟨2, 20, "Beta"⟩]
        (String.intercalate " " [""])))]) ∧
    titleCmd { allOkEnv with interactive := false } [] =
      (CmdResult.ok, [Ev.readDex, Ev.print (Dex.asIncludes (Dex.withTitleText
        [⟨1, 10, "Alpha"⟩, ⟨2, 20, "Beta"⟩]
        (String.intercalate " " [""])))]) :=
  (C9_titles_latest_render_same_dex_both_modes allOkEnv []
    [⟨1, 10, "Alpha"⟩, ⟨2, 20, "Beta"⟩] [⟨1, 10, "Alpha"⟩] ⟨"k", "/keg"⟩
    "2" 2 ["hdr"] rfl rfl (by decide) rfl rfl rfl).1

/-- C10: a delete invocation whose argument neither parses as a
decimal integer nor is `last` resolving to an existing node returns
the usage error with an empty trace — no removal, no index rebuild, no
publish, so NodeStore and both index artifacts are untouched. -/
theorem C10_delete_invalid_arg_usage_error_without_mutation
    (env : Env) (a0 : String) (rest : List String) (keg : Local)
    (hk : env.currentResult = .ok keg)
    (hbad : (a0 ≠ "last" ∧ goAtoi a0 = none) ∨
            (a0 = "last" ∧ env.lastResult = none)) :
    deleteCmd env (a0 :: rest) = (CmdResult.usageErr, []) := by
  have hg : goAtoi "last" = none := by decide
  rcases hbad with ⟨hne, hat⟩ | ⟨heq, hlast⟩
  · simp [deleteCmd, hk, hne, hat]
  · subst heq
    simp [deleteCmd, hk, hlast, hg]

/-- C10 witness: the theorem instantiated at a concrete non-integer,
non-`last` argument. -/
theorem C10_delete_invalid_arg_usage_error_without_mutation_witness :
    deleteCmd allOkEnv ["node7"] = (CmdResult.usageErr, []) :=
  C10_delete_invalid_arg_usage_error_without_mutation allOkEnv "node7" []
    ⟨"k", "/keg"⟩ rfl (Or.inl ⟨by decide, by decide⟩)

end Keg
